import Mathlib

/-!
Shallow embedding of the hybrid query processing engine of the
`nlp-query-engine` repository: the Supabase edge function handling
`processQuery` (classification, SQL synthesis, vector retrieval, caching,
history) and the `match_documents` SQL function, together with theorems
settling the specification claims about them.

Modelling conventions:
* JavaScript strings are modelled as Lean `String` (lists of characters);
  `toLowerCase` is modelled on the ASCII range, which covers every keyword
  the engine tests for.
* The stateful Supabase tables `query_cache_...` and `query_history_...`
  are modelled as explicit state (`ServerState`) threaded through the
  handler; timestamps are `Nat` milliseconds.
* `supabase-js` data calls resolve with a `{data, error}` value and do not
  reject the awaiting promise, so in the model a failed read yields `none`
  (`data = null`) and a failed write is a no-op whose error value the
  handler ignores (the source never inspects the return of `cacheResult` /
  `storeQueryHistory`).  The `Backend` record carries the outcome of each
  external interaction.
* `btoa` raises on any character above U+00FF, hence it is modelled as an
  `Option`-returning function; a `none` propagates to the handler's
  `catch`, modelled as the `Except.error` branch.
-/

namespace NlpQueryEngine

/-! ### JavaScript string primitives used by the engine -/

/-- Character-wise test that the second list starts with the first. -/
def startsWithL : List Char → List Char → Bool
  | [], _ => true
  | _ :: _, [] => false
  | p :: ps, c :: cs => p == c && startsWithL ps cs

/-- Model of `String.prototype.includes`: `containsSub pat hay = true` iff
`pat` occurs contiguously inside `hay`. -/
def containsSub (pat : List Char) : List Char → Bool
  | [] => pat.isEmpty
  | c :: cs => startsWithL pat (c :: cs) || containsSub pat cs

/-- Model of `String.prototype.toLowerCase` (ASCII range), applied once to
the incoming query, matching `const lowerQuery = query.toLowerCase()`. -/
def jsLower (s : String) : List Char := s.toList.map Char.toLower

/-- Model of `lowerQuery.includes(keyword)` for a keyword literal. -/
def incl (kw : String) (lowerQuery : List Char) : Bool :=
  containsSub kw.toList lowerQuery

/-! ### Query classification (`classifyQuery`, edge function lines 125-143) -/

/-- The three query intents of the engine. -/
inductive QueryType
  | sql
  | document
  | hybrid
deriving DecidableEq, Repr

/-- Structural ("SQL") indicator keywords, verbatim from the source. -/
def sqlKeywords : List String :=
  ["count", "average", "sum", "group by", "order by", "salary", "department",
   "employees", "how many", "list all", "show me all"]

/-- Unstructured ("document") indicator keywords, verbatim from the source. -/
def docKeywords : List String :=
  ["skills", "experience", "resume", "qualifications", "background", "python",
   "java", "programming", "certification"]

/-- Model of `sqlKeywords.some(keyword => lowerQuery.includes(keyword))`. -/
def hasSQLKeywords (query : String) : Bool :=
  sqlKeywords.any (fun k => incl k (jsLower query))

/-- Model of `docKeywords.some(keyword => lowerQuery.includes(keyword))`. -/
def hasDocKeywords (query : String) : Bool :=
  docKeywords.any (fun k => incl k (jsLower query))

/-- Model of `classifyQuery`: hybrid when both keyword families occur,
document when only unstructured keywords occur, sql otherwise. -/
def classifyQuery (query : String) : QueryType :=
  if hasSQLKeywords query && hasDocKeywords query then .hybrid
  else if hasDocKeywords query then .document
  else .sql

/-! ### `btoa` and cache-key derivation (`generateCacheKey`, lines 302-305) -/

/-- The base64 alphabet in index order. -/
def base64Alphabet : List Char :=
  "ABCDEFGHIJKLMNOPQRSTUVWXYZabcdefghijklmnopqrstuvwxyz0123456789+/".toList

/-- Character for a 6-bit value. -/
def b64char (n : Nat) : Char := base64Alphabet.getD n 'A'

/-- Standard base64 of a byte sequence (values < 256), with `=` padding. -/
def b64encodeBytes : List Nat → List Char
  | [] => []
  | [a] => [b64char (a / 4), b64char (a % 4 * 16), '=', '=']
  | [a, b] => [b64char (a / 4), b64char (a % 4 * 16 + b / 16), b64char (b % 16 * 4), '=']
  | a :: b :: c :: rest =>
      b64char (a / 4) :: b64char (a % 4 * 16 + b / 16) ::
        b64char (b % 16 * 4 + c / 64) :: b64char (c % 64) :: b64encodeBytes rest

/-- Every character of `s` is a Latin-1 code point (`btoa`'s domain). -/
def latin1 (s : String) : Bool := s.toList.all (fun c => c.toNat ≤ 255)

/-- Model of the Web API `btoa`: base64 of the Latin-1 bytes of `s`; raises
(`none`) as soon as some character lies above U+00FF. -/
def btoa (s : String) : Option String :=
  if latin1 s then some (String.mk (b64encodeBytes (s.toList.map Char.toNat)))
  else none

/-- Model of the regular-expression class `[a-zA-Z0-9]`. -/
def isAlphaNum (c : Char) : Bool :=
  ('a' ≤ c && c ≤ 'z') || ('A' ≤ c && c ≤ 'Z') || ('0' ≤ c && c ≤ '9')

/-- Model of `generateCacheKey`: base64 of `` `${query}-${databaseId}-${userId}` ``,
stripped of non-alphanumeric characters and truncated to 32 characters.
`none` models the `btoa` exception. -/
def generateCacheKey (query databaseId userId : String) : Option String :=
  let content := query ++ "-" ++ databaseId ++ "-" ++ userId
  (btoa content).map (fun b => String.mk ((b.toList.filter isAlphaNum).take 32))

/-! ### Schema data and SQL synthesis (`generateSQL`, lines 228-269) -/

/-- Column of a discovered schema (spec `ColumnDescriptor`, name component). -/
structure ColumnDescriptor where
  name : String
deriving DecidableEq, Repr

/-- Table of a discovered schema (spec `TableDescriptor`, name and columns). -/
structure TableDescriptor where
  name : String
  columns : List ColumnDescriptor
deriving DecidableEq, Repr

/-- Discovered schema (`schema_data` of a `discovered_databases` row; the
source passes it as untyped JSON and, inside `generateSQL`, never reads it). -/
structure Schema where
  tables : List TableDescriptor
deriving DecidableEq, Repr

/-- Statement emitted for the "how many employees" template. -/
def countEmployeesSQL : String := "SELECT COUNT(*) as employee_count FROM employees;"

/-- Statement emitted for the "average salary" + "department" template. -/
def avgSalaryByDeptSQL : String :=
  "SELECT d.dept_name, AVG(e.annual_salary) as avg_salary \n              FROM employees e \n              JOIN departments d ON e.dept_id = d.dept_id \n              GROUP BY d.dept_name;"

/-- Statement emitted for the plain "average salary" template. -/
def avgSalarySQL : String := "SELECT AVG(annual_salary) as average_salary FROM employees;"

/-- Statement emitted for the "highest paid" + "each department" template. -/
def highestPaidPerDeptSQL : String :=
  "SELECT d.dept_name, e.full_name, e.annual_salary\n              FROM employees e\n              JOIN departments d ON e.dept_id = d.dept_id\n              WHERE e.annual_salary = (\n                SELECT MAX(e2.annual_salary) \n                FROM employees e2 \n                WHERE e2.dept_id = e.dept_id\n              )\n              ORDER BY e.annual_salary DESC;"

/-- Statement emitted for the plain "highest paid" template. -/
def highestPaidSQL : String :=
  "SELECT full_name, annual_salary FROM employees ORDER BY annual_salary DESC LIMIT 5;"

/-- Statement emitted for the "hired this year" template. -/
def hiredThisYearSQL : String :=
  "SELECT full_name, position, join_date \n            FROM employees \n            WHERE EXTRACT(YEAR FROM join_date) = EXTRACT(YEAR FROM CURRENT_DATE);"

/-- The default fallback statement. -/
def defaultSQL : String := "SELECT * FROM employees LIMIT 10;"

/-- Model of `generateSQL`: first matching phrase template wins; the `schema`
argument is received (as in the source signature) and never consulted. -/
def generateSQL (query : String) (schema : Schema) : String :=
  let lowerQuery := jsLower query
  if incl "how many employees" lowerQuery then countEmployeesSQL
  else if incl "average salary" lowerQuery then
    (if incl "department" lowerQuery then avgSalaryByDeptSQL else avgSalarySQL)
  else if incl "highest paid" lowerQuery then
    (if incl "each department" lowerQuery then highestPaidPerDeptSQL else highestPaidSQL)
  else if incl "hired this year" lowerQuery then hiredThisYearSQL
  else defaultSQL

/-! ### Mock SQL execution (`executeSQL`, lines 271-295) -/

/-- JSON-ish scalar values appearing in the mock rows. -/
inductive JVal
  | str (s : String)
  | num (n : Nat)
deriving DecidableEq, Repr

/-- A result row: field names paired with values. -/
abbrev Row := List (String × JVal)

/-- The generated mock employee data (lines 288-294). -/
def mockEmployees : List Row :=
  [[("emp_id", .num 1), ("full_name", .str "John Smith"), ("position", .str "Software Engineer"),
    ("annual_salary", .num 95000), ("dept_name", .str "Engineering")],
   [("emp_id", .num 2), ("full_name", .str "Sarah Johnson"), ("position", .str "Data Scientist"),
    ("annual_salary", .num 110000), ("dept_name", .str "Data Science")],
   [("emp_id", .num 3), ("full_name", .str "Mike Chen"), ("position", .str "Product Manager"),
    ("annual_salary", .num 105000), ("dept_name", .str "Product")],
   [("emp_id", .num 4), ("full_name", .str "Emily Davis"), ("position", .str "UX Designer"),
    ("annual_salary", .num 85000), ("dept_name", .str "Design")],
   [("emp_id", .num 5), ("full_name", .str "David Wilson"), ("position", .str "DevOps Engineer"),
    ("annual_salary", .num 98000), ("dept_name", .str "Engineering")]]

/-- Model of `executeSQL`: the two keyed mock results, else the generated
mock employee data; the `schema` argument is never consulted. -/
def executeSQL (sql : String) (schema : Schema) : List Row :=
  if sql = countEmployeesSQL then [[("employee_count", JVal.num 150)]]
  else if sql = avgSalarySQL then [[("average_salary", JVal.num 87500)]]
  else mockEmployees

/-! ### Result shapes -/

/-- A row returned by the `match_documents` SQL function (its
`RETURNS TABLE` clause); similarity values are modelled as rationals. -/
structure MatchRow where
  id : String
  document_id : String
  chunk_text : String
  similarity : ℚ
  filename : String
  metadata : String
deriving DecidableEq, Repr

/-- An element of `documentResults` as built in `processDocumentQuery`. -/
structure DocResult where
  id : String
  text : String
  similarity : ℚ
  document : String
  metadata : String
deriving DecidableEq, Repr

/-- The per-chunk mapping of `processDocumentQuery` (lines 189-195). -/
def mkDocResult (c : MatchRow) : DocResult :=
  ⟨c.id, c.chunk_text, c.similarity, c.filename, c.metadata⟩

/-- The `performanceMetrics` component of a `QueryResult`. -/
structure PerformanceMetrics where
  responseTime : Nat
  cacheHit : Bool
  resultsCount : Nat
deriving DecidableEq, Repr

/-- The `QueryResult` interface of the edge function (optional fields are
`Option`s, matching `sqlResults?` / `documentResults?` / `generatedSQL?`). -/
structure QueryResult where
  queryType : QueryType
  sqlResults : Option (List Row)
  documentResults : Option (List DocResult)
  generatedSQL : Option String
  performanceMetrics : PerformanceMetrics
  sources : List String
deriving DecidableEq, Repr

/-! ### External collaborators and server state -/

/-- Outcomes of the external interactions of one request.  `dbLookup` models
the `discovered_databases` select (`none` = no row, which makes
`processSQLQuery` throw); `matchDocuments` models the `match_documents` RPC
(`none` = `data` is `null`, covering both "store error" and "no rows", which
supabase-js reports as a value rather than an exception); the two `Ok` flags
model whether the `cacheResult` upsert and `storeQueryHistory` insert reach
storage (their error values are ignored by the source either way). -/
structure Backend where
  dbLookup : String → String → Option Schema
  matchDocuments : String → String → Option (List MatchRow)
  cacheWriteOk : Bool
  historyWriteOk : Bool

/-- An authorized `processQuery` request: `(queryText, datasetId, callerId)`. -/
structure Request where
  query : String
  databaseId : String
  userId : String
deriving DecidableEq, Repr

/-- A row of the `query_cache_2025_09_30_13_04` table (timestamps in ms). -/
structure CacheRow where
  cache_key : String
  query_text : String
  results : QueryResult
  expires_at : Nat
  hit_count : Nat
  last_accessed : Nat
deriving DecidableEq, Repr

/-- A row of the `query_history_2025_09_30_13_04` table, as inserted by
`storeQueryHistory` (lines 341-356). -/
structure HistoryRow where
  user_id : String
  query_text : String
  query_type : QueryType
  generated_sql : Option String
  results_sql : Option (List Row)
  results_documents : Option (List DocResult)
  performance_metrics : PerformanceMetrics
  cache_key : String
deriving DecidableEq, Repr

/-- The mutable backing store shared between requests. -/
structure ServerState where
  cache : List CacheRow
  history : List HistoryRow
deriving DecidableEq, Repr

/-! ### The three per-intent processors (lines 145-226) -/

/-- Model of `processSQLQuery`: schema lookup (throwing `Database not found`
on a miss), SQL synthesis, mock execution. -/
def processSQLQuery (be : Backend) (query databaseId userId : String) :
    Except String QueryResult :=
  match be.dbLookup databaseId userId with
  | none => .error "Database not found"
  | some schemaData =>
    let generatedSQL := generateSQL query schemaData
    let sqlResults := executeSQL generatedSQL schemaData
    .ok { queryType := .sql, sqlResults := some sqlResults, documentResults := none,
          generatedSQL := some generatedSQL,
          performanceMetrics := ⟨0, false, sqlResults.length⟩,
          sources := ["database"] }

/-- Model of `processDocumentQuery`: the RPC result (`null` coalesced to the
empty list by `chunks?.map(...) || []`) mapped to `documentResults`.  It is
total: a vector-store failure is indistinguishable from zero matches. -/
def processDocumentQuery (be : Backend) (query userId : String) : QueryResult :=
  let chunks := (be.matchDocuments query userId).getD []
  let documentResults := chunks.map mkDocResult
  { queryType := .document, sqlResults := none, documentResults := some documentResults,
    generatedSQL := none,
    performanceMetrics := ⟨0, false, documentResults.length⟩,
    sources := documentResults.map (fun d => d.document) }

/-- Model of `processHybridQuery`: the SQL leg runs first and its exception
propagates (aborting the document leg); then the document leg runs and the
two are merged. -/
def processHybridQuery (be : Backend) (query databaseId userId : String) :
    Except String QueryResult :=
  match processSQLQuery be query databaseId userId with
  | .error e => .error e
  | .ok sqlResult =>
    let docResult := processDocumentQuery be query userId
    .ok { queryType := .hybrid,
          sqlResults := sqlResult.sqlResults,
          documentResults := docResult.documentResults,
          generatedSQL := sqlResult.generatedSQL,
          performanceMetrics :=
            ⟨0, false, (sqlResult.sqlResults.getD []).length
                + (docResult.documentResults.getD []).length⟩,
          sources := sqlResult.sources ++ docResult.sources }

/-- The `switch (queryType)` dispatch of the handler (lines 87-99). -/
def runQuery (be : Backend) (req : Request) : Except String QueryResult :=
  match classifyQuery req.query with
  | .sql => processSQLQuery be req.query req.databaseId req.userId
  | .document => .ok (processDocumentQuery be req.query req.userId)
  | .hybrid => processHybridQuery be req.query req.databaseId req.userId

/-! ### Cache and history operations (lines 307-356) -/

/-- Model of `checkCache`: the first cache row matching the key and not yet
expired (`expires_at > now`); `cache_key` is UNIQUE in the table, so at most
one row matches in well-formed states. -/
def checkCache (cache : List CacheRow) (key : String) (now : Nat) : Option QueryResult :=
  (cache.find? (fun row => row.cache_key == key && decide (now < row.expires_at))).map
    (fun row => row.results)

/-- The exception raised by `updateCacheHit`: it builds its update payload
with `supabaseClient.raw('hit_count + 1')`, and `raw` is not part of the
supabase-js v2 client, so evaluating the payload throws a `TypeError`
before any storage interaction — no row is ever modified and the awaiting
handler falls into its `catch`. -/
def updateCacheHitError : String := "supabaseClient.raw is not a function"

/-- Model of the `cacheResult` upsert as the source issues it: the payload
carries no `id` (the primary key, which the default `upsert` conflict
target resolves against, is freshly generated) and no `onConflict` option,
so when a row with the same UNIQUE `cache_key` already exists the insert
violates the unique constraint and fails (the error value is ignored and
the old row survives); otherwise the row is inserted with the column
defaults `hit_count = 0` and `last_accessed =` insertion time. -/
def upsertCache (cache : List CacheRow) (key queryText : String) (result : QueryResult)
    (expiresAt now : Nat) : List CacheRow :=
  if cache.any (fun row => row.cache_key == key) then cache
  else cache ++ [⟨key, queryText, result, expiresAt, 0, now⟩]

/-- The row built by `storeQueryHistory` (note its second `generateCacheKey`
call passes an empty `databaseId`; the key is supplied by the handler). -/
def mkHistoryRow (userId query : String) (result : QueryResult) (histKey : String) :
    HistoryRow :=
  ⟨userId, query, result.queryType, result.generatedSQL, result.sqlResults,
   result.documentResults, result.performanceMetrics, histKey⟩

/-! ### The request handler (`Deno.serve`, lines 27-123)

`t0` is `Date.now()` at the start of the request (`startTime`, also used for
the expiry comparison of the cache read); `t1` is `Date.now()` when the
response is assembled (so `responseTime = t1 - t0`, and the cached entry
expires at `t1 + 5*60*1000`).  The triple of an authorized request is taken
as given (the unauthorized early return is outside the engine claims). -/

/-- Model of the authorized part of the `Deno.serve` handler body: cache-key
derivation, cache lookup (whose hit path always throws inside
`updateCacheHit`, see `updateCacheHitError`), classification and dispatch,
metrics stamping, cache store, history append.  The `Except.error` branch is
the handler's `catch`, which maps any thrown error to the 500
`Query processing failed` response carrying the error message. -/
def handleQuery (be : Backend) (t0 t1 : Nat) (st : ServerState) (req : Request) :
    Except String QueryResult × ServerState :=
  match generateCacheKey req.query req.databaseId req.userId with
  | none => (.error "InvalidCharacterError", st)
  | some cacheKey =>
    match checkCache st.cache cacheKey t0 with
    | some _ =>
      -- the source would return the cached payload with restamped metrics,
      -- but `await updateCacheHit(...)` runs first and always throws
      -- (`supabaseClient.raw` does not exist), so the hit path reaches the
      -- catch with nothing written
      (.error updateCacheHitError, st)
    | none =>
      match runQuery be req with
      | .error e => (.error e, st)
      | .ok r0 =>
        let result : QueryResult :=
          { r0 with performanceMetrics :=
              { r0.performanceMetrics with responseTime := t1 - t0 } }
        let cache1 :=
          if be.cacheWriteOk then
            upsertCache st.cache cacheKey req.query result (t1 + 5 * 60 * 1000) t1
          else st.cache
        match generateCacheKey req.query "" req.userId with
        | none => (.error "InvalidCharacterError", { st with cache := cache1 })
        | some histKey =>
          (.ok result,
           { cache := cache1,
             history :=
               if be.historyWriteOk then
                 st.history ++ [mkHistoryRow req.userId req.query result histKey]
               else st.history })

/-! ### The `match_documents` SQL function
(`vector_search_function_2025_09_30_13_04.sql`)

Embeddings are an abstract type `E` together with the pgvector cosine
distance operator `<=>`, modelled as an abstract function `dist` into the
rationals; the SQL computes `similarity = 1 - (dc.embedding <=> qe)`,
filters on `similarity > match_threshold` and on document ownership, orders
by ascending distance (= descending similarity) and limits to
`match_count`. -/

/-- A row of `document_chunks_2025_09_30_13_04` (the columns the function
reads). -/
structure ChunkRow (E : Type) where
  id : String
  document_id : String
  chunk_text : String
  embedding : E
  metadata : String

/-- A row of `documents_2025_09_30_13_04` (the columns the function reads). -/
structure DocumentRow where
  id : String
  user_id : String
  filename : String
deriving DecidableEq, Repr

/-- The join `document_chunks dc JOIN documents d ON dc.document_id = d.id`. -/
def joinedRows {E : Type} (chunks : List (ChunkRow E)) (docs : List DocumentRow) :
    List (ChunkRow E × DocumentRow) :=
  chunks.flatMap (fun dc => (docs.filter (fun d => dc.document_id == d.id)).map (fun d => (dc, d)))

/-- The ownership condition `(user_id IS NULL OR d.user_id = user_id)`. -/
def ownershipOk (user_id : Option String) (d : DocumentRow) : Bool :=
  match user_id with
  | none => true
  | some u => d.user_id == u

/-- The full `WHERE` clause of `match_documents` for one joined row. -/
def qualifies {E : Type} (dist : E → E → ℚ) (query_embedding : E) (match_threshold : ℚ)
    (user_id : Option String) (p : ChunkRow E × DocumentRow) : Bool :=
  ownershipOk user_id p.2 && decide (match_threshold < 1 - dist p.1.embedding query_embedding)

/-- The `ORDER BY dc.embedding <=> query_embedding` sort key, as a relation. -/
def distLE {E : Type} (dist : E → E → ℚ) (query_embedding : E) :
    (ChunkRow E × DocumentRow) → (ChunkRow E × DocumentRow) → Prop :=
  fun p q => dist p.1.embedding query_embedding ≤ dist q.1.embedding query_embedding

instance {E : Type} (dist : E → E → ℚ) (qe : E) : DecidableRel (distLE dist qe) :=
  fun p q => inferInstanceAs (Decidable (_ ≤ _))

instance {E : Type} (dist : E → E → ℚ) (qe : E) :
    IsTotal (ChunkRow E × DocumentRow) (distLE dist qe) :=
  ⟨fun p q => le_total _ _⟩

instance {E : Type} (dist : E → E → ℚ) (qe : E) :
    IsTrans (ChunkRow E × DocumentRow) (distLE dist qe) :=
  ⟨fun _ _ _ h h' => le_trans h h'⟩

/-- The `SELECT` list of `match_documents` for one joined row. -/
def matchOut {E : Type} (dist : E → E → ℚ) (query_embedding : E)
    (p : ChunkRow E × DocumentRow) : MatchRow :=
  ⟨p.1.id, p.1.document_id, p.1.chunk_text, 1 - dist p.1.embedding query_embedding,
   p.2.filename, p.1.metadata⟩

/-- Model of the `match_documents` SQL function: join, filter, order by
ascending cosine distance, limit, project. -/
def match_documents {E : Type} (dist : E → E → ℚ) (chunks : List (ChunkRow E))
    (docs : List DocumentRow) (query_embedding : E) (match_threshold : ℚ)
    (match_count : Nat) (user_id : Option String) : List MatchRow :=
  ((((joinedRows chunks docs).filter
        (qualifies dist query_embedding match_threshold user_id)).insertionSort
      (distLE dist query_embedding)).take match_count).map
    (matchOut dist query_embedding)

/-- A `Backend` whose vector leg is realized by the `match_documents`
function over a concrete store, with the literal arguments the edge function
passes (`match_threshold: 0.7`, `match_count: 10`, `user_id: userId`), the
embedding provider abstracted as `embed`. -/
def backendOfStore {E : Type} (dist : E → E → ℚ) (chunks : List (ChunkRow E))
    (docs : List DocumentRow) (embed : String → E)
    (dbl : String → String → Option Schema) : Backend :=
  { dbLookup := dbl,
    matchDocuments := fun q u =>
      some (match_documents dist chunks docs (embed q) (7 / 10 : ℚ) 10 (some u)),
    cacheWriteOk := true,
    historyWriteOk := true }

/-! ### Helper lemmas -/

lemma toList_append (s t : String) : (s ++ t).toList = s.toList ++ t.toList := rfl

lemma latin1_append (s t : String) : latin1 (s ++ t) = (latin1 s && latin1 t) := by
  simp [latin1, toList_append, List.all_append]

lemma latin1_false_left (s t : String) (h : latin1 s = false) : latin1 (s ++ t) = false := by
  simp [latin1_append, h]

lemma key_shape (l : List Char) :
    ((l.filter isAlphaNum).take 32).length ≤ 32 ∧
      ((l.filter isAlphaNum).take 32).all isAlphaNum = true := by
  constructor
  · exact List.length_take_le 32 _
  · rw [List.all_eq_true]
    intro c hc
    exact List.of_mem_filter (List.take_subset _ _ hc)

lemma runQuery_cacheHit_false (be : Backend) (req : Request) (r : QueryResult)
    (h : runQuery be req = .ok r) : r.performanceMetrics.cacheHit = false := by
  unfold runQuery at h
  split at h
  · unfold processSQLQuery at h
    split at h
    · simp at h
    · simp only [Except.ok.injEq] at h
      subst h
      rfl
  · simp only [Except.ok.injEq] at h
    subst h
    rfl
  · unfold processHybridQuery at h
    split at h
    · simp at h
    · simp only [Except.ok.injEq] at h
      subst h
      rfl

/-- The cache-hit path always fails: when the key is derivable and a fresh
cache row matches it, the handler throws inside `updateCacheHit` and
returns the error response, leaving the state untouched. -/
lemma handleQuery_hit_errors (be : Backend) (t0 t1 : Nat) (st : ServerState) (req : Request)
    (k : String) (cached : QueryResult)
    (hkey : generateCacheKey req.query req.databaseId req.userId = some k)
    (hcc : checkCache st.cache k t0 = some cached) :
    handleQuery be t0 t1 st req = (.error updateCacheHitError, st) := by
  simp [handleQuery, hkey, hcc]

/-- Inversion of a successful response: since the hit path always errors,
every `.ok` answer was computed by `runQuery` on a cache miss, restamped
with the elapsed time, cached (when the cache write goes through) and
appended to the history (when the history write goes through). -/
lemma handleQuery_ok_inv (be : Backend) (t0 t1 : Nat) (st : ServerState) (req : Request)
    (r : QueryResult) (st' : ServerState)
    (h : handleQuery be t0 t1 st req = (.ok r, st')) :
    ∃ k hk r0, generateCacheKey req.query req.databaseId req.userId = some k ∧
      checkCache st.cache k t0 = none ∧
      runQuery be req = .ok r0 ∧
      generateCacheKey req.query "" req.userId = some hk ∧
      r = { r0 with performanceMetrics :=
              { r0.performanceMetrics with responseTime := t1 - t0 } } ∧
      st' = { cache :=
                if be.cacheWriteOk then
                  upsertCache st.cache k req.query r (t1 + 300000) t1
                else st.cache,
              history :=
                if be.historyWriteOk then
                  st.history ++ [mkHistoryRow req.userId req.query r hk]
                else st.history } := by
  simp only [handleQuery] at h
  split at h
  · simp at h
  · rename_i k hkey
    split at h
    · simp at h
    · rename_i hcache
      split at h
      · simp at h
      · rename_i r0 hrun
        split at h
        · simp at h
        · rename_i hk hhist
          simp only [Prod.mk.injEq, Except.ok.injEq] at h
          refine ⟨k, hk, r0, hkey, hcache, hrun, hhist, h.1.symm, ?_⟩
          rw [← h.1, ← h.2]

/-! ### Claim C4: the classifier -/

/-- C4: `classify` is a total pure function onto `{sql, document, hybrid}`:
if the lowercased text contains at least one structural and at least one
unstructured keyword it returns `hybrid`; if it contains only unstructured
keywords it returns `document`; in every other case it returns `sql`. -/
theorem classifyQuery_cases (q : String) :
    ((∃ k ∈ sqlKeywords, incl k (jsLower q) = true) →
        (∃ k ∈ docKeywords, incl k (jsLower q) = true) → classifyQuery q = .hybrid) ∧
    ((¬ ∃ k ∈ sqlKeywords, incl k (jsLower q) = true) →
        (∃ k ∈ docKeywords, incl k (jsLower q) = true) → classifyQuery q = .document) ∧
    ((¬ ∃ k ∈ docKeywords, incl k (jsLower q) = true) → classifyQuery q = .sql) := by
  have hs : (hasSQLKeywords q = true) ↔ (∃ k ∈ sqlKeywords, incl k (jsLower q) = true) := by
    simp [hasSQLKeywords, List.any_eq_true]
  have hd : (hasDocKeywords q = true) ↔ (∃ k ∈ docKeywords, incl k (jsLower q) = true) := by
    simp [hasDocKeywords, List.any_eq_true]
  refine ⟨fun h1 h2 => ?_, fun h1 h2 => ?_, fun h1 => ?_⟩
  · simp [classifyQuery, hs.mpr h1, hd.mpr h2]
  · have hs' : hasSQLKeywords q = false := by
      cases hq : hasSQLKeywords q
      · rfl
      · exact absurd (hs.mp hq) h1
    simp [classifyQuery, hs', hd.mpr h2]
  · have hd' : hasDocKeywords q = false := by
      cases hq : hasDocKeywords q
      · rfl
      · exact absurd (hd.mp hq) h1
    simp [classifyQuery, hd']

/-- C4 witness: "count python skills" contains a structural and an
unstructured keyword and classifies as hybrid. -/
theorem classifyQuery_cases_witness : classifyQuery "count python skills" = .hybrid :=
  (classifyQuery_cases "count python skills").1 (by decide) (by decide)

/-! ### Claim C3: the SQL synthesizer -/

/-- Specification-side rendering of the claimed cross-check: every emitted
statement's referenced table names must exist in the schema, falling back to
the default statement otherwise.  Every non-default template references the
`employees` table, so a schema without an `employees` table must force the
default statement. -/
def synthesizerCrossChecksSchema : Prop :=
  ∀ (q : String) (s : Schema), (∀ t ∈ s.tables, t.name ≠ "employees") →
    generateSQL q s = defaultSQL

/-- C3 counterexample: on the empty schema (no `employees` table at all) the
query "how many employees" still yields the COUNT template, not the default
statement — `generateSQL` performs no schema cross-check. -/
theorem generateSQL_no_crosscheck : ¬ synthesizerCrossChecksSchema := by
  intro h
  have hdef := h "how many employees" ⟨[]⟩ (by intro t ht; simp at ht)
  have hcount : generateSQL "how many employees" ⟨[]⟩ = countEmployeesSQL := by decide
  rw [hcount] at hdef
  exact absurd hdef (by decide)

/-- C3 amended: `generateSQL` always returns a SQL string (it is total), its
result is entirely independent of the schema argument (no cross-check of
table or column existence happens), and when no phrase template matches it
returns the default bounded projection `SELECT * FROM employees LIMIT 10;`. -/
theorem generateSQL_schema_independent_default (q : String) (s s' : Schema)
    (h1 : incl "how many employees" (jsLower q) = false)
    (h2 : incl "average salary" (jsLower q) = false)
    (h3 : incl "highest paid" (jsLower q) = false)
    (h4 : incl "hired this year" (jsLower q) = false) :
    generateSQL q s = generateSQL q s' ∧ generateSQL q s = defaultSQL := by
  refine ⟨rfl, ?_⟩
  simp [generateSQL, h1, h2, h3, h4]

/-- C3 witness: a query matching no template gets the default statement,
independently of the schema. -/
theorem generateSQL_schema_independent_default_witness :
    generateSQL "tell me about projects" ⟨[]⟩ =
        generateSQL "tell me about projects" ⟨[⟨"employees", []⟩]⟩ ∧
      generateSQL "tell me about projects" ⟨[]⟩ = defaultSQL :=
  generateSQL_schema_independent_default "tell me about projects" ⟨[]⟩ ⟨[⟨"employees", []⟩]⟩
    (by decide) (by decide) (by decide) (by decide)

/-! ### Claim C6: cache-key determinism and injectivity -/

/-- C6 counterexample: two requests differing in their components (the
dataset/query split moves across the `-` separator) derive the same cache
key, so distinctness of inputs does not imply distinctness of keys. -/
theorem generateCacheKey_collision :
    generateCacheKey "a-b" "c" "d" = generateCacheKey "a" "b-c" "d" ∧
      (("a-b", "c", "d") : String × String × String) ≠ ("a", "b-c", "d") :=
  ⟨by decide, by decide⟩

/-- C6 amended: cache-key derivation is deterministic — equal
`(queryText, datasetId, callerId)` always produce equal keys, with no
dependence on randomness or time — but it is not injective: inputs differing
in at least one component can produce the same key, both because the
`-`-joined content is ambiguous across components and because truncation to
32 characters collapses queries that differ only beyond their 24th byte. -/
theorem generateCacheKey_deterministic_not_injective :
    (∀ q d c q' d' c' : String, q = q' → d = d' → c = c' →
        generateCacheKey q d c = generateCacheKey q' d' c') ∧
    (∃ q d c q' d' c' : String, (q, d, c) ≠ (q', d', c') ∧
        generateCacheKey q d c = generateCacheKey q' d' c') ∧
    (∃ q q' d c : String, q ≠ q' ∧
        generateCacheKey q d c = generateCacheKey q' d c) := by
  refine ⟨fun q d c q' d' c' hq hd hc => by rw [hq, hd, hc], ?_, ?_⟩
  · exact ⟨"x-y", "z", "w", "x", "y-z", "w", by decide, by decide⟩
  · exact ⟨"aaaaaaaaaaaaaaaaaaaaaaaax", "aaaaaaaaaaaaaaaaaaaaaaaay", "d", "u",
      by decide, by decide⟩

/-- C6 amended witness: determinism applied at a concrete input. -/
theorem generateCacheKey_deterministic_not_injective_witness :
    generateCacheKey "list all salaries" "db" "u" =
      generateCacheKey "list all salaries" "db" "u" :=
  generateCacheKey_deterministic_not_injective.1 "list all salaries" "db" "u"
    "list all salaries" "db" "u" rfl rfl rfl

/-! ### Claim C10: partiality of cache-key derivation in the query text -/

/-- C10: for Latin-1 inputs `generateCacheKey` returns a key of at most 32
alphanumeric characters; for a query containing a character above U+00FF
(`€`) the `btoa` model raises, so the handler returns the error response
with the server state unchanged — before classification, synthesis,
retrieval, caching or history recording can occur (the outcome is
independent of the backend). -/
theorem generateCacheKey_latin1_total :
    (∀ q d c : String, latin1 q = true → latin1 d = true → latin1 c = true →
        ∃ k, generateCacheKey q d c = some k ∧ k.toList.length ≤ 32 ∧
          k.toList.all isAlphaNum = true) ∧
    (∃ q : String, latin1 q = false ∧ ∀ d c : String, generateCacheKey q d c = none) ∧
    (∀ (be : Backend) (t0 t1 : Nat) (st : ServerState) (d c : String),
        handleQuery be t0 t1 st ⟨"€", d, c⟩ = (.error "InvalidCharacterError", st)) := by
  have heuro : latin1 "€" = false := by decide
  have hdash : latin1 "-" = true := by decide
  have hnone : ∀ d c : String, generateCacheKey "€" d c = none := by
    intro d c
    have hc1 : latin1 ("€-" ++ d ++ "-" ++ c) = false := by
      apply latin1_false_left
      apply latin1_false_left
      apply latin1_false_left
      decide
    simp [generateCacheKey, btoa, hc1]
  refine ⟨fun q d c hq hd hc => ?_, ⟨"€", heuro, hnone⟩, fun be t0 t1 st d c => ?_⟩
  · have hcontent : latin1 (q ++ "-" ++ d ++ "-" ++ c) = true := by
      simp [latin1_append, hq, hd, hc, hdash]
    refine ⟨String.mk (((b64encodeBytes
        ((q ++ "-" ++ d ++ "-" ++ c).toList.map Char.toNat)).filter isAlphaNum).take 32),
      ?_, (key_shape _).1, (key_shape _).2⟩
    simp [generateCacheKey, btoa, hcontent]
  · simp [handleQuery, hnone]

/-- C10 witness: the Latin-1 part applied at a concrete request. -/
theorem generateCacheKey_latin1_total_witness :
    ∃ k, generateCacheKey "how many employees" "db1" "user1" = some k ∧
      k.toList.length ≤ 32 ∧ k.toList.all isAlphaNum = true :=
  generateCacheKey_latin1_total.1 "how many employees" "db1" "user1"
    (by decide) (by decide) (by decide)

/-! ### More helper lemmas for the handler claims -/

lemma generateCacheKey_empty_db (q d c k : String)
    (h : generateCacheKey q d c = some k) :
    ∃ hk, generateCacheKey q "" c = some hk := by
  simp only [generateCacheKey, btoa] at h ⊢
  by_cases h1 : latin1 (q ++ "-" ++ d ++ "-" ++ c) = true
  · have h2 := h1
    rw [latin1_append, latin1_append, latin1_append] at h2
    simp only [Bool.and_eq_true] at h2
    have hgoal : latin1 (q ++ "-" ++ "" ++ "-" ++ c) = true := by
      rw [latin1_append, latin1_append, latin1_append]
      simp [h2.1.1.1, h2.2, (by decide : latin1 "" = true), (by decide : latin1 "-" = true)]
    rw [if_pos hgoal]
    exact ⟨_, rfl⟩
  · rw [if_neg h1] at h
    simp at h

lemma checkCache_cons_of_ne (hd : CacheRow) (l : List CacheRow) (key : String) (t' : Nat)
    (hne : hd.cache_key ≠ key) :
    checkCache (hd :: l) key t' = checkCache l key t' := by
  unfold checkCache
  rw [List.find?_cons_of_neg _ (by simp [hne])]

lemma checkCache_append_fresh (key q : String) (r : QueryResult) (e hc la t' : Nat) :
    ∀ cache : List CacheRow, (∀ row ∈ cache, row.cache_key ≠ key) →
      checkCache (cache ++ [⟨key, q, r, e, hc, la⟩]) key t' =
        if t' < e then some r else none
  | [], _ => by
    by_cases he : t' < e <;> simp [checkCache, List.find?, he]
  | hd :: rest, hfresh => by
    rw [List.cons_append, checkCache_cons_of_ne hd _ key t' (hfresh hd (by simp))]
    exact checkCache_append_fresh key q r e hc la t' rest
      (fun row hrow => hfresh row (by simp [hrow]))

lemma upsertCache_of_fresh (cache : List CacheRow) (key q : String) (r : QueryResult)
    (e t : Nat) (hfresh : ∀ row ∈ cache, row.cache_key ≠ key) :
    upsertCache cache key q r e t = cache ++ [⟨key, q, r, e, 0, t⟩] := by
  unfold upsertCache
  rw [if_neg]
  intro hany
  obtain ⟨row, hrow, hbeq⟩ := List.any_eq_true.mp hany
  exact hfresh row hrow (by simpa using hbeq)

/-- The intent-shape invariant of the spec data model: `sql` results carry
no document matches, `document` results carry no SQL rows, `hybrid` results
carry both (possibly empty). -/
def intentShapeOk (r : QueryResult) : Prop :=
  (r.queryType = .sql → r.documentResults = none) ∧
  (r.queryType = .document → r.sqlResults = none) ∧
  (r.queryType = .hybrid → r.sqlResults.isSome = true ∧ r.documentResults.isSome = true)

lemma runQuery_shape (be : Backend) (req : Request) (r : QueryResult)
    (h : runQuery be req = .ok r) : intentShapeOk r := by
  unfold runQuery at h
  split at h
  · unfold processSQLQuery at h
    split at h
    · simp at h
    · simp only [Except.ok.injEq] at h
      subst h
      simp [intentShapeOk]
  · simp only [Except.ok.injEq] at h
    subst h
    simp [intentShapeOk, processDocumentQuery]
  · unfold processHybridQuery at h
    split at h
    · simp at h
    · rename_i sqlResult heq
      simp only [Except.ok.injEq] at h
      subst h
      refine ⟨by simp, by simp, fun _ => ⟨?_, by simp [processDocumentQuery]⟩⟩
      unfold processSQLQuery at heq
      split at heq
      · simp at heq
      · simp only [Except.ok.injEq] at heq
        rw [← heq]
        simp

/-! ### Shared concrete scenario used by several witnesses -/

/-- Backend of a pure document-query scenario: no discovered database, an
empty but successful vector search, storage writes succeed. -/
def docBackend : Backend := ⟨fun _ _ => none, fun _ _ => some [], true, true⟩

/-- A request classified as `document` ("skills" is an unstructured keyword). -/
def docRequest : Request := ⟨"skills", "d", "u"⟩

/-- The computed result of the document scenario before restamping. -/
def docResult0 : QueryResult := ⟨.document, none, some [], none, ⟨0, false, 0⟩, []⟩

/-! ### Claim C1: hybrid partial-failure behaviour -/

/-- Backend whose SQL leg fails (no discovered database) while the vector
leg would succeed with one good match. -/
def cexBackend : Backend :=
  ⟨fun _ _ => none,
   fun _ _ => some [⟨"c1", "d1", "python resume chunk", 9 / 10, "resume.pdf", "{}"⟩],
   true, true⟩

/-- A request that classifies as `hybrid`. -/
def hybReq : Request := ⟨"how many employees know python", "db1", "u1"⟩

/-- C1 counterexample: a hybrid query whose SQL leg fails (schema lookup
miss) while the document leg would succeed is answered with a total error
response and no result payload — not with the successful leg's data and a
`PartialHybridFailure` indicator (no such indicator exists anywhere in the
result type). -/
theorem hybrid_partial_failure_cex :
    classifyQuery hybReq.query = .hybrid ∧
    (cexBackend.matchDocuments hybReq.query hybReq.userId).isSome = true ∧
    handleQuery cexBackend 0 0 ⟨[], []⟩ hybReq = (.error "Database not found", ⟨[], []⟩) :=
  ⟨rfl, rfl, rfl⟩

/-- C1 amended: if the SQL leg of a hybrid query fails, the whole operation
fails with an error response, even when the document leg would succeed; a
vector-leg failure, by contrast, is silently absorbed (a `null` RPC result
becomes an empty `documentResults` list on an otherwise successful
response), with no failure indicator in either case. -/
theorem hybrid_leg_failure_behavior :
    (∀ (be : Backend) (t0 t1 : Nat) (st : ServerState) (req : Request) (k : String),
        classifyQuery req.query = .hybrid →
        be.dbLookup req.databaseId req.userId = none →
        generateCacheKey req.query req.databaseId req.userId = some k →
        checkCache st.cache k t0 = none →
        handleQuery be t0 t1 st req = (.error "Database not found", st)) ∧
    (∀ (be : Backend) (t0 t1 : Nat) (st : ServerState) (req : Request) (k : String)
        (sd : Schema),
        classifyQuery req.query = .hybrid →
        be.dbLookup req.databaseId req.userId = some sd →
        be.matchDocuments req.query req.userId = none →
        generateCacheKey req.query req.databaseId req.userId = some k →
        checkCache st.cache k t0 = none →
        ∃ r, (handleQuery be t0 t1 st req).1 = .ok r ∧
          r.sqlResults = some (executeSQL (generateSQL req.query sd) sd) ∧
          r.documentResults = some []) := by
  constructor
  · intro be t0 t1 st req k hclass hdb hkey hcache
    simp [handleQuery, hkey, hcache, runQuery, hclass, processHybridQuery,
      processSQLQuery, hdb]
  · intro be t0 t1 st req k sd hclass hdb hdoc hkey hcache
    obtain ⟨hk0, hhk⟩ := generateCacheKey_empty_db _ _ _ _ hkey
    refine ⟨{ queryType := .hybrid,
              sqlResults := some (executeSQL (generateSQL req.query sd) sd),
              documentResults := some [],
              generatedSQL := some (generateSQL req.query sd),
              performanceMetrics :=
                ⟨t1 - t0, false, (executeSQL (generateSQL req.query sd) sd).length⟩,
              sources := ["database"] }, ?_, rfl, rfl⟩
    simp [handleQuery, hkey, hcache, runQuery, hclass, processHybridQuery,
      processSQLQuery, hdb, processDocumentQuery, hdoc, hhk]

/-- C1 amended witness: the silent-vector-leg part at a concrete request. -/
theorem hybrid_leg_failure_behavior_witness :
    ∃ r, (handleQuery ⟨fun _ _ => some ⟨[]⟩, fun _ _ => none, true, true⟩ 0 0 ⟨[], []⟩
            hybReq).1 = .ok r ∧
      r.sqlResults = some (executeSQL (generateSQL hybReq.query ⟨[]⟩) ⟨[]⟩) ∧
      r.documentResults = some [] :=
  hybrid_leg_failure_behavior.2 ⟨fun _ _ => some ⟨[]⟩, fun _ _ => none, true, true⟩ 0 0
    ⟨[], []⟩ hybReq "aG93IG1hbnkgZW1wbG95ZWVzIGtub3cg" ⟨[]⟩ rfl rfl rfl rfl rfl

/-! ### Claim C2: storage-write failures never fail the response -/

/-- C2: if the handler would answer `.ok r`, it still answers `.ok r` under
any outcome of the cache-store write and of the history append — these
writes are fire-and-forget and can never convert a successful computation
into an error response. -/
theorem storage_write_failure_ignored (be : Backend) (t0 t1 : Nat) (st : ServerState)
    (req : Request) (r : QueryResult)
    (h : (handleQuery be t0 t1 st req).1 = .ok r) (x y : Bool) :
    (handleQuery { be with cacheWriteOk := x, historyWriteOk := y } t0 t1 st req).1 =
      .ok r := by
  have hfst : (handleQuery { be with cacheWriteOk := x, historyWriteOk := y } t0 t1 st req).1 =
      (handleQuery be t0 t1 st req).1 := by
    cases hgk : generateCacheKey req.query req.databaseId req.userId with
    | none => simp [handleQuery, hgk]
    | some k =>
      cases hcc : checkCache st.cache k t0 with
      | some cached => simp [handleQuery, hgk, hcc]
      | none =>
        have hrq : runQuery { be with cacheWriteOk := x, historyWriteOk := y } req =
            runQuery be req := rfl
        cases hr : runQuery be req with
        | error e => simp [handleQuery, hgk, hcc, hrq, hr]
        | ok r0 =>
          cases hk2 : generateCacheKey req.query "" req.userId with
          | none => simp [handleQuery, hgk, hcc, hrq, hr, hk2]
          | some hk => simp [handleQuery, hgk, hcc, hrq, hr, hk2]
  rw [hfst, h]

/-- C2 witness: with both storage writes failing, a successfully computed
document query still returns its result. -/
theorem storage_write_failure_ignored_witness :
    (handleQuery { docBackend with cacheWriteOk := false, historyWriteOk := false } 0 0
        ⟨[], []⟩ docRequest).1 = .ok docResult0 :=
  storage_write_failure_ignored docBackend 0 0 ⟨[], []⟩ docRequest docResult0 rfl false false

/-! ### Claim C5: cache idempotence -/

/-- C5 counterexample: the first call succeeds and caches its result, but
the second identical call within the TTL does not report `cacheHit = true`
with the cached payload — it fails outright with the `updateCacheHit`
`TypeError` (the hit path evaluates the nonexistent `supabaseClient.raw`),
leaving the state unchanged. -/
theorem cache_hit_crash_cex :
    ((handleQuery docBackend 0 0 ⟨[], []⟩ docRequest).1 = .ok docResult0) ∧
    handleQuery docBackend 1 1 (handleQuery docBackend 0 0 ⟨[], []⟩ docRequest).2
        docRequest =
      (.error updateCacheHitError, (handleQuery docBackend 0 0 ⟨[], []⟩ docRequest).2) :=
  ⟨rfl, rfl⟩

/-- C5 amended: a second identical `(queryText, datasetId, callerId)`
request within the 5-minute TTL window never returns the cached payload:
the cache lookup succeeds, but the hit path then throws inside
`updateCacheHit` (`supabaseClient.raw` is not a supabase-js v2 API), so the
second call fails with the error response and the state is unchanged;
`cacheHit = true` is never reported.  The second call's backend is
arbitrary: no backend is consulted. -/
theorem cache_replay_always_errors (be be2 : Backend) (t0 t1 t0' t1' : Nat)
    (st : ServerState) (req : Request) (r1 : QueryResult) (st1 : ServerState) (k : String)
    (hkey : generateCacheKey req.query req.databaseId req.userId = some k)
    (hfresh : ∀ row ∈ st.cache, row.cache_key ≠ k)
    (h : handleQuery be t0 t1 st req = (.ok r1, st1))
    (hcw : be.cacheWriteOk = true)
    (htime : t0' < t1 + 300000) :
    handleQuery be2 t0' t1' st1 req = (.error updateCacheHitError, st1) := by
  obtain ⟨k', hk', r0, hkey', hcache, hrun, hhist, hr, hst⟩ :=
    handleQuery_ok_inv be t0 t1 st req r1 st1 h
  rw [hkey] at hkey'
  injection hkey' with hkk
  subst hkk
  subst hst
  refine handleQuery_hit_errors be2 t0' t1' _ req k r1 hkey ?_
  show checkCache (if be.cacheWriteOk then
      upsertCache st.cache k req.query r1 (t1 + 300000) t1 else st.cache) k t0' = some r1
  rw [hcw, if_pos rfl, upsertCache_of_fresh st.cache k req.query r1 (t1 + 300000) t1 hfresh,
    checkCache_append_fresh k req.query r1 (t1 + 300000) 0 t1 t0' st.cache hfresh,
    if_pos htime]

/-- C5 amended witness: the concrete document scenario replayed from the
state its first call produced, under a different backend. -/
theorem cache_replay_always_errors_witness :
    handleQuery docBackend 1 2
        ⟨[⟨"c2tpbGxzLWQtdQ", "skills", docResult0, 300000, 0, 0⟩], []⟩ docRequest =
      (.error updateCacheHitError,
        ⟨[⟨"c2tpbGxzLWQtdQ", "skills", docResult0, 300000, 0, 0⟩], []⟩) :=
  cache_replay_always_errors ⟨fun _ _ => none, fun _ _ => some [], true, false⟩
    docBackend 0 0 1 2 ⟨[], []⟩ docRequest docResult0
    ⟨[⟨"c2tpbGxzLWQtdQ", "skills", docResult0, 300000, 0, 0⟩], []⟩ "c2tpbGxzLWQtdQ"
    rfl (by simp) rfl rfl (by decide)

/-! ### Claim C8: the intent-shape invariant -/

/-- C8: every successful response of the handler satisfies the intent-shape
invariant, provided every cached result in the incoming state does (cache
rows are themselves handler-produced results): `sql` implies no
`documentMatches`, `document` implies no `sqlRows`, `hybrid` implies both
present (possibly empty). -/
theorem processQuery_intent_shape (be : Backend) (t0 t1 : Nat) (st : ServerState)
    (req : Request) (r : QueryResult) (st' : ServerState)
    (hwf : ∀ row ∈ st.cache, intentShapeOk row.results)
    (h : handleQuery be t0 t1 st req = (.ok r, st')) :
    intentShapeOk r := by
  obtain ⟨k, hk, r0, hkey, hcache, hrun, hhist, hr, hst⟩ :=
    handleQuery_ok_inv be t0 t1 st req r st' h
  have hshape := runQuery_shape be req r0 hrun
  subst hr
  exact ⟨hshape.1, hshape.2.1, hshape.2.2⟩

/-- C8 witness: the concrete document scenario satisfies the invariant. -/
theorem processQuery_intent_shape_witness : intentShapeOk docResult0 :=
  processQuery_intent_shape ⟨fun _ _ => none, fun _ _ => some [], false, false⟩ 0 0
    ⟨[], []⟩ docRequest docResult0 ⟨[], []⟩ (by simp) rfl

/-! ### Claim C9: history recording -/

/-- C9 counterexample: a query processed to a successful response whose
history insert is rejected by the store appends nothing (the error value is
ignored), so not every successful response is recorded; and a query
answered from the cache is never a successful response at all — replaying
the document scenario against its own cached state yields the
`updateCacheHit` error with nothing appended. -/
theorem history_claim_cex :
    ((handleQuery ⟨fun _ _ => none, fun _ _ => some [], true, false⟩ 0 0 ⟨[], []⟩
        docRequest).1 = .ok docResult0) ∧
    ((handleQuery ⟨fun _ _ => none, fun _ _ => some [], true, false⟩ 0 0 ⟨[], []⟩
        docRequest).2).history = [] ∧
    handleQuery docBackend 1 1
        ⟨[⟨"c2tpbGxzLWQtdQ", "skills", docResult0, 300000, 0, 0⟩], []⟩ docRequest =
      (.error updateCacheHitError,
        ⟨[⟨"c2tpbGxzLWQtdQ", "skills", docResult0, 300000, 0, 0⟩], []⟩) :=
  ⟨rfl, rfl, rfl⟩

/-- C9 amended: every successful response is computed by the cache-miss
path — no query is ever successfully answered from the cache (the hit path
throws in `updateCacheHit` and 500s, appending nothing) — and for each
successful response exactly one `QueryRecord` is appended whenever the
history store accepts the insert; a rejected insert is swallowed, leaving
the successful response unrecorded. -/
theorem history_on_success :
    (∀ (be : Backend) (t0 t1 : Nat) (st : ServerState) (req : Request) (r : QueryResult)
        (st' : ServerState),
        handleQuery be t0 t1 st req = (.ok r, st') →
        be.historyWriteOk = true →
        ∃ hk, st'.history = st.history ++ [mkHistoryRow req.userId req.query r hk]) ∧
    (∀ (be : Backend) (t0 t1 : Nat) (st : ServerState) (req : Request) (r : QueryResult)
        (st' : ServerState),
        handleQuery be t0 t1 st req = (.ok r, st') →
        r.performanceMetrics.cacheHit = false) ∧
    (∀ (be : Backend) (t0 t1 : Nat) (st : ServerState) (req : Request) (k : String)
        (cached : QueryResult),
        generateCacheKey req.query req.databaseId req.userId = some k →
        checkCache st.cache k t0 = some cached →
        handleQuery be t0 t1 st req = (.error updateCacheHitError, st)) := by
  refine ⟨?_, ?_, ?_⟩
  · intro be t0 t1 st req r st' h hhw
    obtain ⟨k, hk, r0, hkey, hcache, hrun, hhist, hr, hst⟩ :=
      handleQuery_ok_inv be t0 t1 st req r st' h
    refine ⟨hk, ?_⟩
    rw [hst]
    simp [hhw]
  · intro be t0 t1 st req r st' h
    obtain ⟨k, hk, r0, hkey, hcache, hrun, hhist, hr, hst⟩ :=
      handleQuery_ok_inv be t0 t1 st req r st' h
    subst hr
    exact runQuery_cacheHit_false be req r0 hrun
  · intro be t0 t1 st req k cached hkey hcc
    exact handleQuery_hit_errors be t0 t1 st req k cached hkey hcc

/-- C9 amended witness: the concrete document scenario appends exactly one
history row when its insert is accepted. -/
theorem history_on_success_witness :
    ∃ hk, (⟨[], [mkHistoryRow "u" "skills" docResult0 "c2tpbGxzLS11"]⟩ : ServerState).history =
      ([] : List HistoryRow) ++ [mkHistoryRow docRequest.userId docRequest.query docResult0 hk] :=
  history_on_success.1 ⟨fun _ _ => none, fun _ _ => some [], false, true⟩ 0 0
    ⟨[], []⟩ docRequest docResult0
    ⟨[], [mkHistoryRow "u" "skills" docResult0 "c2tpbGxzLS11"]⟩ rfl rfl

/-! ### Claim C7: document retrieval semantics -/

end NlpQueryEngine
